import Mathlib

/-
Verification development for the Bybit trading client repository
(order_manager.py, portfolio.py, orderbook_stream.py, trading_types.py).

The Python sources are shallowly embedded: pure computations become Lean
functions, Python `Decimal` values become rationals (ℚ, value semantics of
Decimal comparison), Python exceptions become `Except PyErr`, the outcome of
the HTTP helper `_make_request` is passed to each public operation as an
explicit `Except PyErr <response>` parameter (the network is an external
oracle), and `datetime.datetime.now()` is passed in as an explicit `now`
parameter.  Wire dictionaries are embedded as structures of `Option String`
fields (`none` = key absent), matching the `dict.get` accesses in the source.
-/

/-- Python exception classes that the embedded code can raise:
`TypeError` (bad operand types for `+`), `ValueError` (enum constructor or
`int()` on a bad string), and `decimal.InvalidOperation` (bad `Decimal`
string). -/
inductive PyErr where
  | typeError
  | valueError
  | invalidOperation
deriving DecidableEq, Repr

/-- Lift an `Option` to `Except`, raising `e` on `none` (models a fallible
Python construction). -/
def toExcept {α : Type} (o : Option α) (e : PyErr) : Except PyErr α :=
  match o with
  | some a => Except.ok a
  | none => Except.error e

/-- Dynamically-typed Python values that appear in request parameter
dictionaries: strings, ints, and bools. -/
inductive PyVal where
  | pstr (s : String)
  | pint (n : Int)
  | pbool (b : Bool)
deriving DecidableEq, Repr

/-- Python `+` on dynamic values: string concatenation for two strings,
numeric addition for ints/bools (bool is an int subtype), and `TypeError`
when a string meets a number, exactly as CPython behaves. -/
def pyAdd : PyVal → PyVal → Except PyErr PyVal
  | PyVal.pstr a, PyVal.pstr b => Except.ok (PyVal.pstr (a ++ b))
  | PyVal.pint a, PyVal.pint b => Except.ok (PyVal.pint (a + b))
  | PyVal.pint a, PyVal.pbool b => Except.ok (PyVal.pint (a + if b then 1 else 0))
  | PyVal.pbool a, PyVal.pint b => Except.ok (PyVal.pint ((if a then 1 else 0) + b))
  | PyVal.pbool a, PyVal.pbool b =>
      Except.ok (PyVal.pint ((if a then 1 else 0) + (if b then 1 else 0)))
  | _, _ => Except.error PyErr.typeError

/-- Python `str()` of a parameter value (as used by f-strings):
strings verbatim, ints in decimal, bools as `True`/`False`. -/
def pyStrOf : PyVal → String
  | PyVal.pstr s => s
  | PyVal.pint n => toString n
  | PyVal.pbool b => if b then "True" else "False"

/-- ASCII upper-casing of one character (all method strings in the source are
ASCII, so this matches Python `str.upper`). -/
def asciiUpper (c : Char) : Char :=
  if 97 ≤ c.toNat ∧ c.toNat ≤ 122 then Char.ofNat (c.toNat - 32) else c

/-- Python `method.upper()` for the ASCII method names used by the source. -/
def pyUpper (s : String) : String :=
  String.mk (s.toList.map asciiUpper)

/-- Check that the character list `p` is an initial segment of `s` (helper for
`strStarts`). -/
def listStarts : List Char → List Char → Bool
  | [], _ => true
  | _ :: _, [] => false
  | p :: ps, c :: cs => p == c && listStarts ps cs

/-- Python `s.startswith(p)`. -/
def strStarts (s p : String) : Bool :=
  listStarts p.toList s.toList

/-- Truthiness of `d.get(key)` for a string-valued key: the key must be
present and its value must be a non-empty string. -/
def strTruthy : Option String → Bool
  | none => false
  | some s => if s = "" then false else true

/-- Lowercase hexadecimal digit. -/
def hexDigitChar (n : Nat) : Char :=
  if n < 10 then Char.ofNat (48 + n) else Char.ofNat (87 + n)

/-- Four lowercase hex digits (for `\uXXXX` JSON escapes). -/
def hex4 (n : Nat) : String :=
  String.mk [hexDigitChar (n / 4096 % 16), hexDigitChar (n / 256 % 16),
             hexDigitChar (n / 16 % 16), hexDigitChar (n % 16)]

/-- JSON escape of one character as `json.dumps` (default `ensure_ascii=True`)
produces it: the two-character escapes for quote, backslash and common
controls, `\uXXXX` for other controls and all non-ASCII codepoints (surrogate
pairs above the BMP), and the character itself otherwise. -/
def jsonEscapeChar (c : Char) : String :=
  if c = '"' then "\\\""
  else if c = '\\' then "\\\\"
  else if c = '\n' then "\\n"
  else if c = '\t' then "\\t"
  else if c = '\r' then "\\r"
  else if c.toNat = 8 then "\\b"
  else if c.toNat = 12 then "\\f"
  else if c.toNat < 32 ∨ 126 < c.toNat then
    if c.toNat < 65536 then "\\u" ++ hex4 c.toNat
    else
      "\\u" ++ hex4 (55296 + (c.toNat - 65536) / 1024) ++
      "\\u" ++ hex4 (56320 + (c.toNat - 65536) % 1024)
  else String.mk [c]

/-- JSON string literal for `s`, as `json.dumps` renders it. -/
def jsonQuote (s : String) : String :=
  "\"" ++ String.join (s.toList.map jsonEscapeChar) ++ "\""

/-- JSON rendering of one parameter value, as `json.dumps` renders it. -/
def jsonDumpVal : PyVal → String
  | PyVal.pstr s => jsonQuote s
  | PyVal.pint n => toString n
  | PyVal.pbool b => if b then "true" else "false"

/-- Python `json.dumps` of a flat string-keyed dictionary with the default
separators `", "` and `": "`, preserving insertion order. -/
def json_dumps (l : List (String × PyVal)) : String :=
  "\x7b" ++
    String.intercalate ", " (l.map (fun kv => jsonQuote kv.1 ++ ": " ++ jsonDumpVal kv.2)) ++
  "\x7d"

/-- Query-string rendering `"&".join(f"(k)=(v)" ...)` used by the Portfolio
Manager for GET parameter signing. -/
def queryJoin (l : List (String × PyVal)) : String :=
  String.intercalate "&" (l.map (fun kv => kv.1 ++ "=" ++ pyStrOf kv.2))

/-- Numeric value of a digit list (most significant first). -/
def digitsVal (cs : List Char) : Nat :=
  cs.foldl (fun a c => a * 10 + (c.toNat - 48)) 0

/-- Value of the decimal literal `sign * m * 10 ^ e` as a rational
(`mkRat n d` is the normalized fraction `n / d`, see `Rat.mkRat_eq_div`). -/
def decValue (sign : Int) (m : Nat) (e : Int) : ℚ :=
  if 0 ≤ e then ((sign * m * 10 ^ e.toNat : ℤ) : ℚ)
  else mkRat (sign * m) (10 ^ (-e).toNat)

/-- Parse the exponent tail (after `e`/`E`) of a decimal numeric string. -/
def parseExpTail (sign : Int) (m : Nat) (e0 : Int) (r : List Char) : Option ℚ :=
  let se : Int × List Char :=
    match r with
    | '+' :: t => (1, t)
    | '-' :: t => (-1, t)
    | t => (1, t)
  let ed := se.2.takeWhile Char.isDigit
  let r3 := se.2.dropWhile Char.isDigit
  if ed.isEmpty ∨ ¬r3.isEmpty then none
  else some (decValue sign m (e0 + se.1 * (digitsVal ed : Int)))

/-- Python `decimal.Decimal(s)` restricted to finite numeric strings:
optional sign, integer digits and/or a fractional part, optional exponent.
Special values (`NaN`, `Infinity`), whitespace trimming and underscore
removal are out of scope of this development and are treated as parse
failures; no claim exercises them. -/
def parseDecimal (s : String) : Option ℚ :=
  let cs := s.toList
  let sr : Int × List Char :=
    match cs with
    | '+' :: r => (1, r)
    | '-' :: r => (-1, r)
    | r => (1, r)
  let ip := sr.2.takeWhile Char.isDigit
  let rest1 := sr.2.dropWhile Char.isDigit
  let fr : List Char × List Char :=
    match rest1 with
    | '.' :: r => (r.takeWhile Char.isDigit, r.dropWhile Char.isDigit)
    | r => ([], r)
  if ip.isEmpty ∧ fr.1.isEmpty then none
  else
    let m := digitsVal (ip ++ fr.1)
    let e0 : Int := -(fr.1.length : Int)
    match fr.2 with
    | [] => some (decValue sr.1 m e0)
    | 'e' :: r => parseExpTail sr.1 m e0 r
    | 'E' :: r => parseExpTail sr.1 m e0 r
    | _ => none

/-- Python `int(s)` on the timestamp strings used by the source: optional
sign followed by digits. -/
def parsePyInt (s : String) : Option Int :=
  let cs := s.toList
  let sr : Int × List Char :=
    match cs with
    | '+' :: r => (1, r)
    | '-' :: r => (-1, r)
    | r => (1, r)
  if sr.2.isEmpty ∨ ¬(sr.2.all Char.isDigit) then none
  else some (sr.1 * (digitsVal sr.2 : Int))

/-- Conversion of an exchange millisecond epoch to seconds, modelling the
Python expression `int(field) / 1000` inside `datetime.fromtimestamp`; the
`datetime` value itself is modelled as the exact rational epoch-second count
(binary-float rounding and timezone rendering are abstracted away). -/
def msToSeconds (n : Int) : ℚ :=
  mkRat n 1000

/-- Order side enumeration from trading_types.py (`OrderSide`). -/
inductive OrderSide where
  | BUY
  | SELL
deriving DecidableEq, Repr

/-- Fallible wire-string conversion `OrderSide(s)`: the constructor raises
`ValueError` outside the closed value set, modelled as `none`. -/
def OrderSide.ofString (s : String) : Option OrderSide :=
  if s = "Buy" then some OrderSide.BUY
  else if s = "Sell" then some OrderSide.SELL
  else none

/-- Order type enumeration from trading_types.py (`OrderType`). -/
inductive OrderType where
  | MARKET
  | LIMIT
deriving DecidableEq, Repr

/-- Fallible wire-string conversion `OrderType(s)`. -/
def OrderType.ofString (s : String) : Option OrderType :=
  if s = "Market" then some OrderType.MARKET
  else if s = "Limit" then some OrderType.LIMIT
  else none

/-- Order status enumeration from trading_types.py (`OrderStatus`). -/
inductive OrderStatus where
  | NEW
  | PARTIALLY_FILLED
  | FILLED
  | CANCELLED
  | REJECTED
deriving DecidableEq, Repr

/-- Fallible wire-string conversion `OrderStatus(s)`. -/
def OrderStatus.ofString (s : String) : Option OrderStatus :=
  if s = "New" then some OrderStatus.NEW
  else if s = "PartiallyFilled" then some OrderStatus.PARTIALLY_FILLED
  else if s = "Filled" then some OrderStatus.FILLED
  else if s = "Cancelled" then some OrderStatus.CANCELLED
  else if s = "Rejected" then some OrderStatus.REJECTED
  else none

/-- Position side enumeration from trading_types.py (`PositionSide`):
`LONG = "Buy"`, `SHORT = "Sell"`, `NONE = "None"`. -/
inductive PositionSide where
  | LONG
  | SHORT
  | NONE
deriving DecidableEq, Repr

/-- Fallible wire-string conversion `PositionSide(s)`. -/
def PositionSide.ofString (s : String) : Option PositionSide :=
  if s = "Buy" then some PositionSide.LONG
  else if s = "Sell" then some PositionSide.SHORT
  else if s = "None" then some PositionSide.NONE
  else none

/-- Order record from trading_types.py (`Order`); `Decimal` fields are
rationals, `datetime` fields are rational epoch seconds. -/
structure Order where
  order_id : String
  symbol : String
  side : OrderSide
  order_type : OrderType
  quantity : ℚ
  price : Option ℚ
  status : OrderStatus
  filled_quantity : ℚ
  average_price : Option ℚ
  created_time : ℚ
  updated_time : ℚ
  time_in_force : String
deriving DecidableEq, Repr

/-- Position record from trading_types.py (`Position`). -/
structure Position where
  symbol : String
  side : PositionSide
  size : ℚ
  entry_price : Option ℚ
  mark_price : Option ℚ
  unrealized_pnl : Option ℚ
  realized_pnl : Option ℚ
  leverage : Option ℚ
  margin : Option ℚ
deriving DecidableEq, Repr

/-- One order-book level from trading_types.py (`OrderBookLevel`). -/
structure OrderBookLevel where
  price : ℚ
  size : ℚ
deriving DecidableEq, Repr

/-- Order-book snapshot from trading_types.py (`OrderBook`). -/
structure OrderBook where
  symbol : String
  bids : List OrderBookLevel
  asks : List OrderBookLevel
  timestamp : Int
deriving DecidableEq, Repr

/-- Exchange order record as received on the wire (the keys that
`_parse_order` reads); `none` models an absent key. -/
structure OrderData where
  orderId : Option String
  symbol : Option String
  side : Option String
  orderType : Option String
  qty : Option String
  price : Option String
  orderStatus : Option String
  cumExecQty : Option String
  avgPrice : Option String
  createdTime : Option String
  updatedTime : Option String
  timeInForce : Option String
deriving DecidableEq, Repr

/-- Exchange position record as received on the wire (the keys that
`_parse_position` reads). -/
structure PosData where
  symbol : Option String
  side : Option String
  size : Option String
  avgPrice : Option String
  markPrice : Option String
  unrealisedPnl : Option String
  cumRealisedPnl : Option String
  leverage : Option String
  positionIM : Option String
deriving DecidableEq, Repr

/-- Response of `POST /v5/order/create`: the top-level `retCode` (`none` =
key absent) and the `orderId` of the `result` object (`none` = result or
orderId absent). -/
structure CreateOrderResp where
  retCode : Option Int
  orderId : Option String
deriving DecidableEq, Repr

/-- Response of `POST /v5/order/cancel`: only `retCode` is consulted. -/
structure CancelResp where
  retCode : Option Int
deriving DecidableEq, Repr

/-- Response of `GET /v5/order/realtime`: `retCode` and `result.list`
(`[]` models an absent result or list, matching the chained `.get`
defaults). -/
structure OrderListResp where
  retCode : Option Int
  list : List OrderData
deriving DecidableEq, Repr

/-- Response of `GET /v5/position/list`: `retCode` and `result.list`. -/
structure PositionListResp where
  retCode : Option Int
  list : List PosData
deriving DecidableEq, Repr

/-- Decidable equality for `Except` outcomes, used to evaluate embedded
operations on concrete inputs. -/
instance {ε α : Type} [DecidableEq ε] [DecidableEq α] : DecidableEq (Except ε α) := fun a b =>
  match a, b with
  | Except.ok x, Except.ok y =>
      if h : x = y then isTrue (by rw [h]) else isFalse (by simp [h])
  | Except.error x, Except.error y =>
      if h : x = y then isTrue (by rw [h]) else isFalse (by simp [h])
  | Except.ok _, Except.error _ => isFalse (by simp)
  | Except.error _, Except.ok _ => isFalse (by simp)

/-- Parse an optional money field, modelling
`Decimal(d.get(f, "0")) if d.get(f) else None`: absent or empty strings give
`none`; a present non-empty string is parsed (raising `InvalidOperation` on a
non-numeric string). -/
def parseMoneyOpt (o : Option String) : Except PyErr (Option ℚ) :=
  match o with
  | none => Except.ok none
  | some s =>
      if s = "" then Except.ok none
      else
        match parseDecimal s with
        | some v => Except.ok (some v)
        | none => Except.error PyErr.invalidOperation

/-- Parse a defaulted money field, modelling `Decimal(d.get(f, "0"))`. -/
def parseMoneyD (o : Option String) : Except PyErr ℚ :=
  match parseDecimal (o.getD "0") with
  | some v => Except.ok v
  | none => Except.error PyErr.invalidOperation

/-- Fixed receive window held by both managers (`self.recv_window = 5000`,
an `int`). -/
def recv_window : Int := 5000

/-- UTF-8 encoding of one character as a byte list (pure arithmetic version
of the standard encoder). -/
def utf8EncodeCharBytes (c : Char) : List Nat :=
  let v := c.toNat
  if v < 128 then [v]
  else if v < 2048 then [192 + v / 64, 128 + v % 64]
  else if v < 65536 then [224 + v / 4096, 128 + v / 64 % 64, 128 + v % 64]
  else [240 + v / 262144, 128 + v / 4096 % 64, 128 + v / 64 % 64, 128 + v % 64]

/-- Python `s.encode("utf-8")` as a byte list. -/
def utf8Bytes (s : String) : List Nat :=
  (s.toList.map utf8EncodeCharBytes).flatten

/-- Right rotation of a 32-bit word. -/
def rotr32 (n x : Nat) : Nat :=
  ((x >>> n) ||| (x <<< (32 - n))) % 4294967296

/-- SHA-256 big sigma-0. -/
def bsig0 (x : Nat) : Nat :=
  rotr32 2 x ^^^ rotr32 13 x ^^^ rotr32 22 x

/-- SHA-256 big sigma-1. -/
def bsig1 (x : Nat) : Nat :=
  rotr32 6 x ^^^ rotr32 11 x ^^^ rotr32 25 x

/-- SHA-256 small sigma-0. -/
def ssig0 (x : Nat) : Nat :=
  rotr32 7 x ^^^ rotr32 18 x ^^^ (x >>> 3)

/-- SHA-256 small sigma-1. -/
def ssig1 (x : Nat) : Nat :=
  rotr32 17 x ^^^ rotr32 19 x ^^^ (x >>> 10)

/-- SHA-256 round constants. -/
def shaK : List Nat :=
  [1116352408, 1899447441, 3049323471, 3921009573, 961987163,
   1508970993, 2453635748, 2870763221, 3624381080, 310598401,
   607225278, 1426881987, 1925078388, 2162078206, 2614888103,
   3248222580, 3835390401, 4022224774, 264347078, 604807628,
   770255983, 1249150122, 1555081692, 1996064986, 2554220882,
   2821834349, 2952996808, 3210313671, 3336571891, 3584528711,
   113926993, 338241895, 666307205, 773529912, 1294757372,
   1396182291, 1695183700, 1986661051, 2177026350, 2456956037,
   2730485921, 2820302411, 3259730800, 3345764771, 3516065817,
   3600352804, 4094571909, 275423344, 430227734, 506948616,
   659060556, 883997877, 958139571, 1322822218, 1537002063,
   1747873779, 1955562222, 2024104815, 2227730452, 2361852424,
   2428436474, 2756734187, 3204031479, 3329325298]

/-- SHA-256 initial hash state. -/
def shaH0 : List Nat :=
  [1779033703, 3144134277, 1013904242, 2773480762, 1359893119,
   2600822924, 528734635, 1541459225]

/-- Big-endian byte decomposition of `x` into `n` bytes. -/
def bytesBE : Nat → Nat → List Nat
  | 0, _ => []
  | n + 1, x => bytesBE n (x / 256) ++ [x % 256]

/-- SHA-256 message padding: a 0x80 byte, zeros to 56 mod 64, and the bit
length as a 64-bit big-endian integer. -/
def sha256Pad (msg : List Nat) : List Nat :=
  let L := msg.length
  let k := (120 - (L + 1) % 64) % 64
  msg ++ [128] ++ List.replicate k 0 ++ bytesBE 8 (8 * L)

/-- Group bytes into big-endian 32-bit words. -/
def toWords : List Nat → List Nat
  | a :: b :: c :: d :: rest => (a * 16777216 + b * 65536 + c * 256 + d) :: toWords rest
  | _ => []

/-- Group a word list into 16-word blocks. -/
def toBlocks16 : List Nat → List (List Nat)
  | [] => []
  | w :: rest => ((w :: rest).take 16) :: toBlocks16 ((w :: rest).drop 16)
termination_by l => l.length
decreasing_by simp [List.length_drop]; omega

/-- Append the next message-schedule word. -/
def schedExtend (w : List Nat) : List Nat :=
  w ++ [(ssig1 (w.getD (w.length - 2) 0) + w.getD (w.length - 7) 0 +
         ssig0 (w.getD (w.length - 15) 0) + w.getD (w.length - 16) 0) % 4294967296]

/-- Expand a 16-word block to the 64-word message schedule. -/
def schedule (block : List Nat) : List Nat :=
  (List.range 48).foldl (fun w _ => schedExtend w) block

/-- One SHA-256 round on the 8-word working state. -/
def shaRound (k w : Nat) (st : List Nat) : List Nat :=
  let a := st.getD 0 0
  let b := st.getD 1 0
  let c := st.getD 2 0
  let d := st.getD 3 0
  let e := st.getD 4 0
  let f := st.getD 5 0
  let g := st.getD 6 0
  let h := st.getD 7 0
  let ch := (e &&& f) ^^^ ((e ^^^ 4294967295) &&& g)
  let t1 := (h + bsig1 e + ch + k + w) % 4294967296
  let maj := (a &&& b) ^^^ (a &&& c) ^^^ (b &&& c)
  let t2 := (bsig0 a + maj) % 4294967296
  [(t1 + t2) % 4294967296, a, b, c, (d + t1) % 4294967296, e, f, g]

/-- SHA-256 compression of one block into the hash state. -/
def shaCompress (h : List Nat) (block : List Nat) : List Nat :=
  let w := schedule block
  let st := (List.range 64).foldl (fun st i => shaRound (shaK.getD i 0) (w.getD i 0) st) h
  List.zipWith (fun x y => (x + y) % 4294967296) h st

/-- SHA-256 digest of a byte list, as a 32-byte list. -/
def sha256 (msg : List Nat) : List Nat :=
  let hh := (toBlocks16 (toWords (sha256Pad msg))).foldl shaCompress shaH0
  (hh.map (bytesBE 4)).flatten

/-- Two lowercase hex characters of one byte. -/
def hexByte (n : Nat) : String :=
  String.mk [hexDigitChar (n / 16 % 16), hexDigitChar (n % 16)]

/-- Lowercase hexadecimal rendering of a byte list
(Python `hexdigest()`). -/
def hexOfBytes (bs : List Nat) : String :=
  String.join (bs.map hexByte)

/-- HMAC-SHA256 of `msg` keyed by `key` (64-byte block size), as
`hmac.new(key, msg, hashlib.sha256)` computes it. -/
def hmacSha256 (key msg : List Nat) : List Nat :=
  let k0 := if 64 < key.length then sha256 key else key
  let kp := k0 ++ List.replicate (64 - k0.length) 0
  sha256 ((kp.map (fun b => b ^^^ 92)) ++ sha256 ((kp.map (fun b => b ^^^ 54)) ++ msg))

namespace BybitOrderManager

/-- Embedding of `BybitOrderManager._generate_signature` (order_manager.py
lines 30-37).  The source concatenates
`timestamp + self.api_key + self.recv_window + params` where `recv_window`
is the `int` 5000, so Python `+` is applied to a `str` and an `int`; the
dynamic evaluation is modelled by `pyAdd` (left-associated, as in Python),
and a successful concatenation would be signed with HMAC-SHA256 and rendered
in lowercase hex. -/
def generate_signature (api_key api_secret : String) (timestamp params : String) :
    Except PyErr String := do
  let s1 ← pyAdd (PyVal.pstr timestamp) (PyVal.pstr api_key)
  let s2 ← pyAdd s1 (PyVal.pint recv_window)
  let s3 ← pyAdd s2 (PyVal.pstr params)
  match s3 with
  | PyVal.pstr s =>
      Except.ok (hexOfBytes (hmacSha256 (utf8Bytes api_secret) (utf8Bytes s)))
  | _ => Except.error PyErr.typeError

/-- Embedding of the parameter-string computation of
`BybitOrderManager._make_request` (order_manager.py line 54):
`params_str = json.dumps(params) if params else ""` — the HTTP method is not
consulted. -/
def make_request_params_str (method : String) (params : Option (List (String × PyVal))) :
    String :=
  match method, params with
  | _, some (kv :: rest) => json_dumps (kv :: rest)
  | _, _ => ""

/-- Embedding of `BybitOrderManager._parse_order` (order_manager.py lines
209-223); fallible constructions appear in the source's evaluation order. -/
def parse_order (od : OrderData) : Except PyErr Order := do
  let side ← toExcept (OrderSide.ofString (od.side.getD "")) PyErr.valueError
  let otype ← toExcept (OrderType.ofString (od.orderType.getD "")) PyErr.valueError
  let qty ← parseMoneyD od.qty
  let price ← parseMoneyOpt od.price
  let status ← toExcept (OrderStatus.ofString (od.orderStatus.getD "")) PyErr.valueError
  let filled ← parseMoneyD od.cumExecQty
  let avg ← parseMoneyOpt od.avgPrice
  let ctms ← toExcept (parsePyInt (od.createdTime.getD "0")) PyErr.valueError
  let utms ← toExcept (parsePyInt (od.updatedTime.getD "0")) PyErr.valueError
  Except.ok
    { order_id := od.orderId.getD ""
      symbol := od.symbol.getD ""
      side := side
      order_type := otype
      quantity := qty
      price := price
      status := status
      filled_quantity := filled
      average_price := avg
      created_time := msToSeconds ctms
      updated_time := msToSeconds utms
      time_in_force := od.timeInForce.getD "GTC" }

/-- Embedding of `BybitOrderManager.place_market_order` (order_manager.py
lines 72-114) as a function of the `_make_request` outcome: any exception is
caught (`except Exception` → `None`); on `retCode == 0` a synthetic `Order`
is built from the inputs and the response's order id. -/
def place_market_order (symbol : String) (side : OrderSide) (quantity : ℚ)
    (reduce_only : Bool) (now : ℚ) (outcome : Except PyErr CreateOrderResp) :
    Option Order :=
  match reduce_only, outcome with
  | _, Except.error _ => none
  | _, Except.ok resp =>
      if resp.retCode = some 0 then
        some
          { order_id := resp.orderId.getD ""
            symbol := symbol
            side := side
            order_type := OrderType.MARKET
            quantity := quantity
            price := none
            status := OrderStatus.NEW
            filled_quantity := 0
            average_price := none
            created_time := now
            updated_time := now
            time_in_force := "GTC" }
      else none

/-- Embedding of `BybitOrderManager.place_limit_order` (order_manager.py
lines 116-163), analogous to `place_market_order` but carrying the requested
price and time-in-force. -/
def place_limit_order (symbol : String) (side : OrderSide) (quantity price : ℚ)
    (time_in_force : String) (reduce_only : Bool) (now : ℚ)
    (outcome : Except PyErr CreateOrderResp) : Option Order :=
  match reduce_only, outcome with
  | _, Except.error _ => none
  | _, Except.ok resp =>
      if resp.retCode = some 0 then
        some
          { order_id := resp.orderId.getD ""
            symbol := symbol
            side := side
            order_type := OrderType.LIMIT
            quantity := quantity
            price := some price
            status := OrderStatus.NEW
            filled_quantity := 0
            average_price := none
            created_time := now
            updated_time := now
            time_in_force := time_in_force }
      else none

/-- Embedding of `BybitOrderManager.cancel_order` (order_manager.py lines
165-184): `True` exactly on `retCode == 0`, `False` otherwise, exceptions
caught. -/
def cancel_order (outcome : Except PyErr CancelResp) : Bool :=
  match outcome with
  | Except.error _ => false
  | Except.ok resp => decide (resp.retCode = some 0)

/-- Embedding of `BybitOrderManager.get_order_status` (order_manager.py lines
186-207): on `retCode == 0` with a non-empty list, the first entry is parsed;
an empty list, a non-zero code, or any exception (including a parse failure)
yields `none`. -/
def get_order_status (outcome : Except PyErr OrderListResp) : Option Order :=
  match outcome with
  | Except.error _ => none
  | Except.ok resp =>
      if resp.retCode = some 0 then
        match resp.list with
        | [] => none
        | od :: _ =>
            match parse_order od with
            | Except.ok o => some o
            | Except.error _ => none
      else none

end BybitOrderManager

namespace BybitPortfolioManager

/-- Embedding of `BybitPortfolioManager._generate_signature` (portfolio.py
lines 30-37): here the receive window is stringified (`str(self.recv_window)`)
before concatenation, so the signature is always computed: the lowercase hex
HMAC-SHA256 digest, keyed by the API secret, of
`timestamp + api_key + "5000" + params`. -/
def generate_signature (api_key api_secret : String) (timestamp params : String) : String :=
  let param_str := timestamp ++ api_key ++ toString recv_window ++ params
  hexOfBytes (hmacSha256 (utf8Bytes api_secret) (utf8Bytes param_str))

/-- Embedding of the parameter-string computation of
`BybitPortfolioManager._make_request` (portfolio.py lines 54-59): GET with
truthy params signs the `k=v` pairs joined with `&`; POST with truthy params
signs the JSON dump; otherwise the empty string. -/
def make_request_params_str (method : String) (params : Option (List (String × PyVal))) :
    String :=
  match params with
  | some (kv :: rest) =>
      if pyUpper method = "GET" then queryJoin (kv :: rest)
      else if pyUpper method = "POST" then json_dumps (kv :: rest)
      else ""
  | _ => ""

/-- Embedding of `BybitPortfolioManager._parse_position` (portfolio.py lines
212-231): the size is parsed first; a zero size forces `PositionSide.NONE`
without consulting the reported side string, a non-zero size converts the
reported side string through the `PositionSide` constructor (raising
`ValueError` on an unknown string); the optional money fields follow. -/
def parse_position (pd : PosData) : Except PyErr Position := do
  let size ← parseMoneyD pd.size
  let side ←
    (if size = 0 then Except.ok PositionSide.NONE
     else toExcept (PositionSide.ofString (pd.side.getD "None")) PyErr.valueError)
  let entry ← parseMoneyOpt pd.avgPrice
  let mark ← parseMoneyOpt pd.markPrice
  let upnl ← parseMoneyOpt pd.unrealisedPnl
  let rpnl ← parseMoneyOpt pd.cumRealisedPnl
  let lev ← parseMoneyOpt pd.leverage
  let marg ← parseMoneyOpt pd.positionIM
  Except.ok
    { symbol := pd.symbol.getD ""
      side := side
      size := size
      entry_price := entry
      mark_price := mark
      unrealized_pnl := upnl
      realized_pnl := rpnl
      leverage := lev
      margin := marg }

/-- Embedding of `BybitPortfolioManager.get_positions` (portfolio.py lines
78-105) as a function of the `_make_request` outcome: on `retCode == 0` the
position records are parsed in order and those with zero size are dropped;
any exception anywhere (transport or a parse failure inside the loop) is
caught by the operation's `except Exception` and yields the empty list, as
does a non-zero return code. -/
def get_positions (outcome : Except PyErr PositionListResp) : List Position :=
  match outcome with
  | Except.error _ => []
  | Except.ok resp =>
      if resp.retCode = some 0 then
        match resp.list.mapM parse_position with
        | Except.ok ps => ps.filter (fun p => decide (p.size ≠ 0))
        | Except.error _ => []
      else []

/-- Embedding of `BybitPortfolioManager._parse_order` (portfolio.py lines
233-247); the body is textually identical to the Order Manager's
`_parse_order`. -/
def parse_order (od : OrderData) : Except PyErr Order := do
  let side ← toExcept (OrderSide.ofString (od.side.getD "")) PyErr.valueError
  let otype ← toExcept (OrderType.ofString (od.orderType.getD "")) PyErr.valueError
  let qty ← parseMoneyD od.qty
  let price ← parseMoneyOpt od.price
  let status ← toExcept (OrderStatus.ofString (od.orderStatus.getD "")) PyErr.valueError
  let filled ← parseMoneyD od.cumExecQty
  let avg ← parseMoneyOpt od.avgPrice
  let ctms ← toExcept (parsePyInt (od.createdTime.getD "0")) PyErr.valueError
  let utms ← toExcept (parsePyInt (od.updatedTime.getD "0")) PyErr.valueError
  Except.ok
    { order_id := od.orderId.getD ""
      symbol := od.symbol.getD ""
      side := side
      order_type := otype
      quantity := qty
      price := price
      status := status
      filled_quantity := filled
      average_price := avg
      created_time := msToSeconds ctms
      updated_time := msToSeconds utms
      time_in_force := od.timeInForce.getD "GTC" }

end BybitPortfolioManager

/-- Ticker payload of a WebSocket message: the five keys that
`_process_message` reads (`none` = key absent), plus `hasOtherKeys`
recording whether the payload dictionary carries any further keys (which
make it truthy without affecting the tracked fields). -/
structure TickerData where
  symbol : Option String
  bid1Price : Option String
  bid1Size : Option String
  ask1Price : Option String
  ask1Size : Option String
  hasOtherKeys : Bool
deriving DecidableEq, Repr

/-- Truthiness of the ticker payload dictionary (`if ticker_data:`): it is
truthy exactly when it has at least one key. -/
def tickerTruthy (td : TickerData) : Bool :=
  td.symbol.isSome || td.bid1Price.isSome || td.bid1Size.isSome ||
  td.ask1Price.isSome || td.ask1Size.isSome || td.hasOtherKeys

/-- Inbound WebSocket message: `topic`, `data` (`none` = key absent) and the
millisecond timestamp `ts`. -/
structure WsMsg where
  topic : Option String
  data : Option TickerData
  ts : Option Int
deriving DecidableEq, Repr

/-- Mutable per-stream state of `BybitOrderBookStream`: the four tracked
best-bid/best-ask scalars and the latest stored snapshot. -/
structure StreamState where
  best_bid_price : Option ℚ
  best_bid_size : Option ℚ
  best_ask_price : Option ℚ
  best_ask_size : Option ℚ
  orderbook : Option OrderBook
deriving DecidableEq, Repr

/-- Stream state at construction time: nothing observed yet. -/
def initStreamState : StreamState :=
  { best_bid_price := none, best_bid_size := none, best_ask_price := none,
    best_ask_size := none, orderbook := none }

namespace BybitOrderBookStream

/-- Embedding of `BybitOrderBookStream._process_message` (orderbook_stream.py
lines 60-94).  Returns the updated state together with the snapshot handed to
the registered callback (`none` when the message is skipped or no callback is
set); a `Decimal` parse failure propagates as an exception (ending the listen
loop in the source).  A message is processed only when its topic starts with
"tickers" and its payload is truthy; each side's scalars are overwritten only
when both of that side's fields are truthy, and the snapshot is built from
whatever scalars are then known. -/
def process_message (streamSymbol : String) (callbackSet : Bool) (msg : WsMsg)
    (st : StreamState) : Except PyErr (StreamState × Option OrderBook) :=
  if strStarts (msg.topic.getD "") "tickers" then
    match msg.data with
    | none => Except.ok (st, none)
    | some td =>
        if tickerTruthy td then do
          let ts := msg.ts.getD 0
          let bpair ←
            (if strTruthy td.bid1Price && strTruthy td.bid1Size then do
              let pr ← toExcept (parseDecimal (td.bid1Price.getD "")) PyErr.invalidOperation
              let sz ← toExcept (parseDecimal (td.bid1Size.getD "")) PyErr.invalidOperation
              Except.ok (some pr, some sz)
             else Except.ok (st.best_bid_price, st.best_bid_size))
          let apair ←
            (if strTruthy td.ask1Price && strTruthy td.ask1Size then do
              let pr ← toExcept (parseDecimal (td.ask1Price.getD "")) PyErr.invalidOperation
              let sz ← toExcept (parseDecimal (td.ask1Size.getD "")) PyErr.invalidOperation
              Except.ok (some pr, some sz)
             else Except.ok (st.best_ask_price, st.best_ask_size))
          let bids : List OrderBookLevel :=
            match bpair with
            | (some pr, some sz) => [{ price := pr, size := sz }]
            | _ => []
          let asks : List OrderBookLevel :=
            match apair with
            | (some pr, some sz) => [{ price := pr, size := sz }]
            | _ => []
          let ob : OrderBook :=
            { symbol := td.symbol.getD streamSymbol, bids := bids, asks := asks, timestamp := ts }
          Except.ok
            ({ best_bid_price := bpair.1, best_bid_size := bpair.2,
               best_ask_price := apair.1, best_ask_size := apair.2,
               orderbook := some ob },
             if callbackSet then some ob else none)
        else Except.ok (st, none)
  else Except.ok (st, none)

end BybitOrderBookStream

/-- Parameter dictionary `a GET request would carry` for the counterexample
and witness runs: the category filter sent by every GET operation. -/
def c2params : List (String × PyVal) := [("category", PyVal.pstr "linear")]

/-- Ticker payload of tick 1 of the three-tick scenario: bid fields only. -/
def c5d1 : TickerData :=
  { symbol := none, bid1Price := some "100", bid1Size := some "2", ask1Price := none,
    ask1Size := none, hasOtherKeys := false }

/-- Ticker payload of tick 2: ask fields only. -/
def c5d2 : TickerData :=
  { symbol := none, bid1Price := none, bid1Size := none, ask1Price := some "101",
    ask1Size := some "3", hasOtherKeys := false }

/-- Ticker payload of tick 3: neither bid nor ask fields, but truthy
(it carries some other key, e.g. a last price). -/
def c5d3 : TickerData :=
  { symbol := none, bid1Price := none, bid1Size := none, ask1Price := none,
    ask1Size := none, hasOtherKeys := true }

/-- Tick 1 message (timestamp 1). -/
def c5m1 : WsMsg := { topic := some "tickers.BTCUSDT", data := some c5d1, ts := some 1 }

/-- Tick 2 message (timestamp 2). -/
def c5m2 : WsMsg := { topic := some "tickers.BTCUSDT", data := some c5d2, ts := some 2 }

/-- Tick 3 message (timestamp 3). -/
def c5m3 : WsMsg := { topic := some "tickers.BTCUSDT", data := some c5d3, ts := some 3 }

/-- Snapshot after tick 1: one bid level, no ask level. -/
def c5ob1 : OrderBook :=
  { symbol := "BTCUSDT", bids := [{ price := 100, size := 2 }], asks := [], timestamp := 1 }

/-- Snapshot after tick 2: the unchanged bid level plus one ask level. -/
def c5ob2 : OrderBook :=
  { symbol := "BTCUSDT", bids := [{ price := 100, size := 2 }],
    asks := [{ price := 101, size := 3 }], timestamp := 2 }

/-- Snapshot after tick 3: the same levels as after tick 2, but tick 3's
timestamp. -/
def c5ob3 : OrderBook :=
  { symbol := "BTCUSDT", bids := [{ price := 100, size := 2 }],
    asks := [{ price := 101, size := 3 }], timestamp := 3 }

/-- Stream state after tick 1. -/
def c5st1 : StreamState :=
  { best_bid_price := some 100, best_bid_size := some 2, best_ask_price := none,
    best_ask_size := none, orderbook := some c5ob1 }

/-- Stream state after tick 2. -/
def c5st2 : StreamState :=
  { best_bid_price := some 100, best_bid_size := some 2, best_ask_price := some 101,
    best_ask_size := some 3, orderbook := some c5ob2 }

/-- Stream state after tick 3. -/
def c5st3 : StreamState :=
  { best_bid_price := some 100, best_bid_size := some 2, best_ask_price := some 101,
    best_ask_size := some 3, orderbook := some c5ob3 }

/-- Position payload with non-zero size and an unrecognized side string. -/
def c6pd : PosData :=
  { symbol := some "BTCUSDT", side := some "Bogus", size := some "1", avgPrice := none,
    markPrice := none, unrealisedPnl := none, cumRealisedPnl := none, leverage := none,
    positionIM := none }

/-- Order payload with an unrecognized side string. -/
def c6od : OrderData :=
  { orderId := some "1", symbol := some "BTCUSDT", side := some "Bogus",
    orderType := some "Limit", qty := some "1", price := none, orderStatus := some "New",
    cumExecQty := some "0", avgPrice := none, createdTime := some "0",
    updatedTime := some "0", timeInForce := none }

/-- Position payload of size zero. -/
def c7pd0 : PosData :=
  { symbol := some "BTCUSDT", side := some "Buy", size := some "0", avgPrice := none,
    markPrice := none, unrealisedPnl := none, cumRealisedPnl := none, leverage := none,
    positionIM := none }

/-- Position payload of size two. -/
def c7pd1 : PosData :=
  { symbol := some "ETHUSDT", side := some "Sell", size := some "2", avgPrice := none,
    markPrice := none, unrealisedPnl := none, cumRealisedPnl := none, leverage := none,
    positionIM := none }

/-- Parsed form of `c7pd0`. -/
def c7pos0 : Position :=
  { symbol := "BTCUSDT", side := PositionSide.NONE, size := 0, entry_price := none,
    mark_price := none, unrealized_pnl := none, realized_pnl := none, leverage := none,
    margin := none }

/-- Parsed form of `c7pd1`. -/
def c7pos1 : Position :=
  { symbol := "ETHUSDT", side := PositionSide.SHORT, size := 2, entry_price := none,
    mark_price := none, unrealized_pnl := none, realized_pnl := none, leverage := none,
    margin := none }

/-- Position payload with size zero and a side string outside the enum's
value set. -/
def c8pd : PosData :=
  { symbol := some "BTCUSDT", side := some "Garbage", size := some "0", avgPrice := none,
    markPrice := none, unrealisedPnl := none, cumRealisedPnl := none, leverage := none,
    positionIM := none }

/-- Parsed form of `c8pd`: the side is normalized to `NONE`. -/
def c8pos : Position :=
  { symbol := "BTCUSDT", side := PositionSide.NONE, size := 0, entry_price := none,
    mark_price := none, unrealized_pnl := none, realized_pnl := none, leverage := none,
    margin := none }

/-- Order payload whose `price` is the string "0" and whose `avgPrice` is the
empty string. -/
def c9od : OrderData :=
  { orderId := some "1", symbol := some "BTCUSDT", side := some "Buy",
    orderType := some "Limit", qty := some "1", price := some "0",
    orderStatus := some "New", cumExecQty := some "0", avgPrice := some "",
    createdTime := some "1000", updatedTime := some "2000", timeInForce := some "GTC" }

/-- Parsed form of `c9od`: price zero present, average price absent. -/
def c9o : Order :=
  { order_id := "1", symbol := "BTCUSDT", side := OrderSide.BUY,
    order_type := OrderType.LIMIT, quantity := 1, price := some 0,
    status := OrderStatus.NEW, filled_quantity := 0, average_price := none,
    created_time := 1, updated_time := 2, time_in_force := "GTC" }

/-- Inversion principle for one bind step of the embedded exception monad. -/
theorem exceptBind_eq_ok {α β : Type} {x : Except PyErr α} {f : α → Except PyErr β} {b : β} :
    (x >>= f) = Except.ok b ↔ ∃ a, x = Except.ok a ∧ f a = Except.ok b := by
  cases x <;> simp [Bind.bind, Except.bind]

/-- Every element of a list that `mapM` traverses successfully is itself
mapped successfully. -/
theorem mapM_ok_elem {α β : Type} (f : α → Except PyErr β) (l : List α) (bs : List β)
    (h : l.mapM f = Except.ok bs) : ∀ a ∈ l, ∃ b, f a = Except.ok b := by
  induction l generalizing bs with
  | nil => simp
  | cons x xs ih =>
    intro a ha
    rw [List.mapM_cons] at h
    simp only [exceptBind_eq_ok] at h
    obtain ⟨b, hb, rest, hrest, _⟩ := h
    rcases List.mem_cons.mp ha with rfl | ha2
    · exact ⟨b, hb⟩
    · exact ih rest hrest a ha2

/-- C1: the claim states that `_generate_signature` of both managers returns
normally the lowercase hex HMAC-SHA256 digest, keyed by the api_secret, of
`timestamp + api_key + recv_window + params`.  On the code this holds only
for the Portfolio Manager: the Order Manager's version concatenates the
string `timestamp + api_key` with the `int` field `recv_window` and therefore
raises `TypeError` on every invocation, never returning a digest; the
Portfolio Manager stringifies the receive window and returns exactly the
claimed digest (determinism is immediate, both embeddings being functions of
their inputs). -/
theorem c1_generate_signature_behavior (k sec t p : String) :
    BybitOrderManager.generate_signature k sec t p = Except.error PyErr.typeError ∧
    BybitPortfolioManager.generate_signature k sec t p =
      hexOfBytes (hmacSha256 (utf8Bytes sec) (utf8Bytes (t ++ k ++ "5000" ++ p))) := by
  constructor
  · rfl
  · rfl

/-- C2 counterexample: for a GET request carrying the non-empty parameter
dictionary `(category := "linear")`, `BybitOrderManager._make_request`
computes the signed parameter string as the JSON serialization of the
parameters, which is not the empty string the claim asserts. -/
theorem c2_order_manager_get_counterexample :
    BybitOrderManager.make_request_params_str "GET" (some c2params) =
      "\x7b\"category\": \"linear\"\x7d" ∧
    "\x7b\"category\": \"linear\"\x7d" ≠ "" := by
  exact ⟨by decide, by decide⟩

/-- C2 (amended): for every request carrying a non-empty parameter
dictionary, `BybitOrderManager._make_request` computes the signed parameter
string as the JSON-serialized parameter object regardless of the HTTP method
(so also for GET), while `BybitPortfolioManager._make_request` computes it
for GET as the query parameters joined as key=value pairs with "&" and for
POST as the JSON-serialized parameter object. -/
theorem c2_signed_param_strings (m : String) (l : List (String × PyVal)) (h : l ≠ []) :
    BybitOrderManager.make_request_params_str m (some l) = json_dumps l ∧
    (pyUpper m = "GET" → BybitPortfolioManager.make_request_params_str m (some l) = queryJoin l) ∧
    (pyUpper m = "POST" →
      BybitPortfolioManager.make_request_params_str m (some l) = json_dumps l) := by
  match l with
  | [] => exact absurd rfl h
  | kv :: rest =>
    refine ⟨rfl, ?_, ?_⟩
    · intro hm
      simp [BybitPortfolioManager.make_request_params_str, hm]
    · intro hm
      simp [BybitPortfolioManager.make_request_params_str, hm]

/-- C2 witness: the amended claim evaluated at the GET method and the
concrete singleton parameter dictionary. -/
theorem c2_signed_param_strings_witness :
    BybitOrderManager.make_request_params_str "get" (some c2params) = json_dumps c2params ∧
    BybitPortfolioManager.make_request_params_str "get" (some c2params) = queryJoin c2params := by
  have h := c2_signed_param_strings "get" c2params (by decide)
  exact ⟨h.1, h.2.1 (by decide)⟩

/-- C3: for every symbol, side and quantity, when the exchange response to
`place_market_order` has `retCode` 0 and carries an order id, the call
returns an Order whose quantity equals the input quantity, whose price and
average price are absent, whose status is New, whose filled quantity is the
zero decimal, and whose order id is the response's `result.orderId`. -/
theorem c3_place_market_order_success (sym : String) (side : OrderSide) (qty : ℚ)
    (ro : Bool) (now : ℚ) (resp : CreateOrderResp) (oid : String)
    (h0 : resp.retCode = some 0) (h1 : resp.orderId = some oid) :
    BybitOrderManager.place_market_order sym side qty ro now (Except.ok resp) =
      some
        { order_id := oid, symbol := sym, side := side, order_type := OrderType.MARKET,
          quantity := qty, price := none, status := OrderStatus.NEW, filled_quantity := 0,
          average_price := none, created_time := now, updated_time := now,
          time_in_force := "GTC" } := by
  simp [BybitOrderManager.place_market_order, h0, h1]

/-- C3 witness: the success path evaluated at a concrete market order and a
concrete successful response. -/
theorem c3_place_market_order_success_witness :
    BybitOrderManager.place_market_order "BTCUSDT" OrderSide.BUY 1 false 0
        (Except.ok { retCode := some 0, orderId := some "oid-1" }) =
      some
        { order_id := "oid-1", symbol := "BTCUSDT", side := OrderSide.BUY,
          order_type := OrderType.MARKET, quantity := 1, price := none,
          status := OrderStatus.NEW, filled_quantity := 0, average_price := none,
          created_time := 0, updated_time := 0, time_in_force := "GTC" } :=
  c3_place_market_order_success "BTCUSDT" OrderSide.BUY 1 false 0
    { retCode := some 0, orderId := some "oid-1" } "oid-1" rfl rfl

/-- C4: for every exchange response whose `retCode` is not 0,
`place_market_order` and `place_limit_order` and `get_order_status` return an
absent result and `cancel_order` returns false; the embedded operations are
total functions into `Option`/`Bool` — every internal exception is caught by
the operation's `except` block, so nothing is raised past the boundary. -/
theorem c4_nonzero_retcode_failure_paths (sym : String) (side : OrderSide) (qty price : ℚ)
    (tif : String) (ro : Bool) (now : ℚ) (rc : CreateOrderResp) (rx : CancelResp)
    (rq : OrderListResp)
    (h1 : rc.retCode ≠ some 0) (h2 : rx.retCode ≠ some 0) (h3 : rq.retCode ≠ some 0) :
    BybitOrderManager.place_market_order sym side qty ro now (Except.ok rc) = none ∧
    BybitOrderManager.place_limit_order sym side qty price tif ro now (Except.ok rc) = none ∧
    BybitOrderManager.cancel_order (Except.ok rx) = false ∧
    BybitOrderManager.get_order_status (Except.ok rq) = none := by
  refine ⟨?_, ?_, ?_, ?_⟩
  · simp [BybitOrderManager.place_market_order, h1]
  · simp [BybitOrderManager.place_limit_order, h1]
  · simp [BybitOrderManager.cancel_order, h2]
  · simp [BybitOrderManager.get_order_status, h3]

/-- C4 witness: the failure paths evaluated at concrete responses with
`retCode` 10001. -/
theorem c4_nonzero_retcode_failure_paths_witness :
    BybitOrderManager.place_market_order "BTCUSDT" OrderSide.BUY 1 false 0
      (Except.ok { retCode := some 10001, orderId := none }) = none ∧
    BybitOrderManager.place_limit_order "BTCUSDT" OrderSide.BUY 1 30000 "GTC" false 0
      (Except.ok { retCode := some 10001, orderId := none }) = none ∧
    BybitOrderManager.cancel_order (Except.ok { retCode := some 10001 }) = false ∧
    BybitOrderManager.get_order_status
      (Except.ok { retCode := some 10001, list := [] }) = none :=
  c4_nonzero_retcode_failure_paths "BTCUSDT" OrderSide.BUY 1 30000 "GTC" false 0
    { retCode := some 10001, orderId := none } { retCode := some 10001 }
    { retCode := some 10001, list := [] } (by decide) (by decide) (by decide)

/-- C5 counterexample: in the claim's three-tick scenario run at concrete
ticks (bid-only tick at timestamp 1, ask-only tick at timestamp 2, a truthy
tick carrying neither bid nor ask fields at timestamp 3), snapshot 1 has one
bid and no ask, snapshot 2 keeps the bid and adds the ask, snapshot 3 keeps
both levels — but snapshot 3 is not identical to snapshot 2, because it
carries tick 3's exchange timestamp. -/
theorem c5_snapshot3_not_identical_counterexample :
    BybitOrderBookStream.process_message "BTCUSDT" true c5m1 initStreamState =
      Except.ok (c5st1, some c5ob1) ∧
    BybitOrderBookStream.process_message "BTCUSDT" true c5m2 c5st1 =
      Except.ok (c5st2, some c5ob2) ∧
    BybitOrderBookStream.process_message "BTCUSDT" true c5m3 c5st2 =
      Except.ok (c5st3, some c5ob3) ∧
    c5ob3.bids = c5ob2.bids ∧ c5ob3.asks = c5ob2.asks ∧ c5ob3 ≠ c5ob2 := by
  decide

/-- C5 (amended): for a stream processing, in order, a ticker tick carrying
only bid1Price/bid1Size, then a tick carrying only ask1Price/ask1Size, then a
truthy tick carrying neither, snapshot 1 has exactly one bid level and zero
ask levels; snapshot 2 has the same bid level unchanged plus one ask level;
snapshot 3 carries exactly snapshot 2's bid and ask levels — no level is ever
cleared once set — and is identical to snapshot 2 except that its timestamp
is tick 3's timestamp and its symbol follows tick 3's symbol field. -/
theorem c5_sticky_top_of_book (S : String) (top1 top2 top3 : String) (ts1 ts2 ts3 : Int)
    (bp bs ap asz : String) (p q p2 q2 : ℚ) (d3 : TickerData)
    (h1 : strStarts top1 "tickers" = true)
    (h2 : strStarts top2 "tickers" = true)
    (h3 : strStarts top3 "tickers" = true)
    (hbp : parseDecimal bp = some p) (hbs : parseDecimal bs = some q)
    (hap : parseDecimal ap = some p2) (has' : parseDecimal asz = some q2)
    (hbp0 : bp ≠ "") (hbs0 : bs ≠ "") (hap0 : ap ≠ "") (has0 : asz ≠ "")
    (hd3a : d3.bid1Price = none) (hd3b : d3.bid1Size = none)
    (hd3c : d3.ask1Price = none) (hd3d : d3.ask1Size = none)
    (hd3t : tickerTruthy d3 = true) :
    BybitOrderBookStream.process_message S true
        { topic := some top1,
          data := some { symbol := none, bid1Price := some bp, bid1Size := some bs,
                         ask1Price := none, ask1Size := none, hasOtherKeys := false },
          ts := some ts1 } initStreamState =
      Except.ok
        ({ best_bid_price := some p, best_bid_size := some q,
           best_ask_price := none, best_ask_size := none,
           orderbook := some { symbol := S, bids := [{ price := p, size := q }], asks := [],
                               timestamp := ts1 } },
         some { symbol := S, bids := [{ price := p, size := q }], asks := [],
                timestamp := ts1 }) ∧
    BybitOrderBookStream.process_message S true
        { topic := some top2,
          data := some { symbol := none, bid1Price := none, bid1Size := none,
                         ask1Price := some ap, ask1Size := some asz, hasOtherKeys := false },
          ts := some ts2 }
        { best_bid_price := some p, best_bid_size := some q,
          best_ask_price := none, best_ask_size := none,
          orderbook := some { symbol := S, bids := [{ price := p, size := q }], asks := [],
                              timestamp := ts1 } } =
      Except.ok
        ({ best_bid_price := some p, best_bid_size := some q,
           best_ask_price := some p2, best_ask_size := some q2,
           orderbook := some { symbol := S, bids := [{ price := p, size := q }],
                               asks := [{ price := p2, size := q2 }], timestamp := ts2 } },
         some { symbol := S, bids := [{ price := p, size := q }],
                asks := [{ price := p2, size := q2 }], timestamp := ts2 }) ∧
    BybitOrderBookStream.process_message S true
        { topic := some top3, data := some d3, ts := some ts3 }
        { best_bid_price := some p, best_bid_size := some q,
          best_ask_price := some p2, best_ask_size := some q2,
          orderbook := some { symbol := S, bids := [{ price := p, size := q }],
                              asks := [{ price := p2, size := q2 }], timestamp := ts2 } } =
      Except.ok
        ({ best_bid_price := some p, best_bid_size := some q,
           best_ask_price := some p2, best_ask_size := some q2,
           orderbook := some { symbol := d3.symbol.getD S,
                               bids := [{ price := p, size := q }],
                               asks := [{ price := p2, size := q2 }], timestamp := ts3 } },
         some { symbol := d3.symbol.getD S, bids := [{ price := p, size := q }],
                asks := [{ price := p2, size := q2 }], timestamp := ts3 }) := by
  refine ⟨?_, ?_, ?_⟩
  · unfold BybitOrderBookStream.process_message
    simp [h1, tickerTruthy, strTruthy, hbp0, hbs0, hbp, hbs, toExcept, Bind.bind, Except.bind,
      initStreamState]
  · unfold BybitOrderBookStream.process_message
    simp [h2, tickerTruthy, strTruthy, hap0, has0, hap, has', toExcept, Bind.bind, Except.bind]
  · unfold BybitOrderBookStream.process_message
    simp [h3, hd3t, hd3a, hd3b, hd3c, hd3d, strTruthy, Bind.bind, Except.bind]

/-- C5 witness: the amended sticky-top-of-book theorem evaluated at the
concrete three-tick run. -/
theorem c5_sticky_top_of_book_witness :
    BybitOrderBookStream.process_message "BTCUSDT" true c5m1 initStreamState =
      Except.ok (c5st1, some c5ob1) ∧
    BybitOrderBookStream.process_message "BTCUSDT" true c5m2 c5st1 =
      Except.ok (c5st2, some c5ob2) ∧
    BybitOrderBookStream.process_message "BTCUSDT" true c5m3 c5st2 =
      Except.ok (c5st3, some c5ob3) :=
  c5_sticky_top_of_book "BTCUSDT" "tickers.BTCUSDT" "tickers.BTCUSDT" "tickers.BTCUSDT"
    1 2 3 "100" "2" "101" "3" 100 2 101 3 c5d3
    (by decide) (by decide) (by decide) (by decide) (by decide) (by decide) (by decide)
    (by decide) (by decide) (by decide) (by decide) rfl rfl rfl rfl (by decide)

/-- C6 counterexample: a successful response whose position record carries
the side string "Bogus" (outside the fixed value set) with non-zero size
makes `_parse_position` raise the Invalid-Value error, yet the public
`get_positions` returns the empty list to its caller — the error is caught
internally and downgraded, contradicting the claim that it is reported
immediately to the caller. -/
theorem c6_invalid_enum_downgraded_counterexample :
    BybitPortfolioManager.parse_position c6pd = Except.error PyErr.valueError ∧
    BybitPortfolioManager.get_positions
        (Except.ok { retCode := some 0, list := [c6pd] }) = [] := by
  decide

/-- C6 (amended): an enumeration string outside the fixed value set makes the
parse helpers fail with the Invalid-Value error at the parse boundary
(`_parse_position` raises `ValueError` whenever the size is non-zero and the
side string is unrecognized), but the public Order Manager and Portfolio
Manager operations catch every exception internally and downgrade it to an
absent/empty result: `get_positions` returns the empty list and
`get_order_status` returns an absent order; the error is not reported to
their callers. -/
theorem c6_invalid_enum_caught_and_downgraded (pd : PosData) (sz : ℚ)
    (resp : PositionListResp) (rq : OrderListResp) (od : OrderData) (rest : List OrderData)
    (h1 : parseDecimal (pd.size.getD "0") = some sz) (h2 : sz ≠ 0)
    (h3 : PositionSide.ofString (pd.side.getD "None") = none)
    (h4 : resp.retCode = some 0) (h5 : pd ∈ resp.list)
    (h6 : rq.retCode = some 0) (h7 : rq.list = od :: rest)
    (h8 : BybitOrderManager.parse_order od = Except.error PyErr.valueError) :
    BybitPortfolioManager.parse_position pd = Except.error PyErr.valueError ∧
    BybitPortfolioManager.get_positions (Except.ok resp) = [] ∧
    BybitOrderManager.get_order_status (Except.ok rq) = none := by
  have hparse : BybitPortfolioManager.parse_position pd = Except.error PyErr.valueError := by
    unfold BybitPortfolioManager.parse_position
    have hma : parseMoneyD pd.size = Except.ok sz := by simp [parseMoneyD, h1]
    simp [hma, Bind.bind, Except.bind, if_neg h2, h3, toExcept]
  refine ⟨hparse, ?_, ?_⟩
  · cases hm : resp.list.mapM BybitPortfolioManager.parse_position with
    | ok ps =>
      obtain ⟨b, hb⟩ := mapM_ok_elem _ _ _ hm pd h5
      rw [hparse] at hb
      cases hb
    | error e =>
      unfold BybitPortfolioManager.get_positions
      simp only [h4]
      rw [if_pos trivial, hm]
  · simp [BybitOrderManager.get_order_status, h6, h7, h8]

/-- C6 witness: the amended claim evaluated at the concrete bogus-side
position and order payloads. -/
theorem c6_invalid_enum_caught_and_downgraded_witness :
    BybitPortfolioManager.parse_position c6pd = Except.error PyErr.valueError ∧
    BybitPortfolioManager.get_positions
        (Except.ok { retCode := some 0, list := [c6pd] }) = [] ∧
    BybitOrderManager.get_order_status
        (Except.ok { retCode := some 0, list := [c6od] }) = none :=
  c6_invalid_enum_caught_and_downgraded c6pd 1 { retCode := some 0, list := [c6pd] }
    { retCode := some 0, list := [c6od] } c6od []
    (by decide) (by decide) (by decide) rfl (by decide) rfl rfl (by decide)

/-- C7: for every successful (`retCode` 0) position-list response all of
whose records parse, `get_positions` returns exactly the parsed positions
whose size is not the zero decimal, preserving input order (so in particular
the empty input list yields the empty result list). -/
theorem c7_get_positions_filters_zero_size (resp : PositionListResp) (ps : List Position)
    (h0 : resp.retCode = some 0)
    (h1 : resp.list.mapM BybitPortfolioManager.parse_position = Except.ok ps) :
    BybitPortfolioManager.get_positions (Except.ok resp) =
      ps.filter (fun p => decide (p.size ≠ 0)) := by
  unfold BybitPortfolioManager.get_positions
  simp only [h0]
  rw [if_pos trivial, h1]

/-- C7 witness: the filter evaluated at a concrete two-record list, keeping
only the non-zero position. -/
theorem c7_get_positions_filters_zero_size_witness :
    BybitPortfolioManager.get_positions
        (Except.ok { retCode := some 0, list := [c7pd0, c7pd1] }) = [c7pos1] :=
  (c7_get_positions_filters_zero_size { retCode := some 0, list := [c7pd0, c7pd1] }
    [c7pos0, c7pos1] rfl (by decide)).trans (by decide)

/-- C8: whenever `_parse_position` returns a position, a zero parsed size
forces side `NONE` regardless of the payload's reported side string, and a
non-zero parsed size uses the exchange-reported side string directly (its
`PositionSide` conversion is the returned side). -/
theorem c8_position_side_normalization (pd : PosData) (pos : Position)
    (h : BybitPortfolioManager.parse_position pd = Except.ok pos) :
    (pos.size = 0 → pos.side = PositionSide.NONE) ∧
    (pos.size ≠ 0 → PositionSide.ofString (pd.side.getD "None") = some pos.side) := by
  unfold BybitPortfolioManager.parse_position at h
  simp only [exceptBind_eq_ok, Except.ok.injEq] at h
  obtain ⟨size, hsz, side, hside, entry, he, mark, hm, upnl, hu, rpnl, hr, lev, hl, marg,
    hmg, hpos⟩ := h
  subst hpos
  by_cases hz : size = 0
  · rw [if_pos hz] at hside
    cases hside
    simp [hz]
  · rw [if_neg hz] at hside
    cases hps : PositionSide.ofString (pd.side.getD "None") with
    | none => rw [hps] at hside; simp [toExcept] at hside
    | some s =>
      rw [hps] at hside
      simp [toExcept] at hside
      subst hside
      simp [hz]

/-- C8 witness: a payload with size "0" and the out-of-set side string
"Garbage" still parses, and its side is normalized to `NONE`. -/
theorem c8_position_side_normalization_witness :
    BybitPortfolioManager.parse_position c8pd = Except.ok c8pos ∧
    c8pos.side = PositionSide.NONE :=
  ⟨by decide, (c8_position_side_normalization c8pd c8pos (by decide)).1 rfl⟩

/-- C9: parsing an order payload is deterministic and identical across the
two managers (the embedded parsers are equal functions, so parsing the same
payload twice gives field-for-field identical records), and the price and
average-price fields are present if and only if the corresponding source
string is non-empty: a present non-empty price string (such as "0") yields
its parsed decimal value, while an absent or empty string yields an absent
field. -/
theorem c9_parse_order_price_presence (od : OrderData) (o : Order)
    (h : BybitOrderManager.parse_order od = Except.ok o) :
    BybitPortfolioManager.parse_order od = Except.ok o ∧
    (∀ s, od.price = some s → s ≠ "" → o.price = parseDecimal s) ∧
    (strTruthy od.price = false → o.price = none) ∧
    (∀ s, od.avgPrice = some s → s ≠ "" → o.average_price = parseDecimal s) ∧
    (strTruthy od.avgPrice = false → o.average_price = none) := by
  refine ⟨(rfl :
    BybitPortfolioManager.parse_order od = BybitOrderManager.parse_order od).trans h, ?_⟩
  unfold BybitOrderManager.parse_order at h
  simp only [exceptBind_eq_ok, Except.ok.injEq] at h
  obtain ⟨side, hs, otype, hot, qty, hq, price, hp, status, hst, filled, hf, avg, ha, ctms,
    hc, utms, hu, ho⟩ := h
  subst ho
  refine ⟨?_, ?_, ?_, ?_⟩
  · intro s hso hsne
    rw [hso] at hp
    simp only [parseMoneyOpt, if_neg hsne] at hp
    cases hpd : parseDecimal s with
    | none => rw [hpd] at hp; cases hp
    | some v => rw [hpd] at hp; cases hp; simp [hpd]
  · intro h0
    cases hop : od.price with
    | none => rw [hop] at hp; cases hp; simp
    | some s =>
      rw [hop] at h0
      have hse : s = "" := by
        by_contra hne
        simp [strTruthy, hne] at h0
      subst hse
      rw [hop] at hp
      simp only [parseMoneyOpt, if_pos rfl] at hp
      cases hp
      simp
  · intro s hso hsne
    rw [hso] at ha
    simp only [parseMoneyOpt, if_neg hsne] at ha
    cases hpd : parseDecimal s with
    | none => rw [hpd] at ha; cases ha
    | some v => rw [hpd] at ha; cases ha; simp [hpd]
  · intro h0
    cases hop : od.avgPrice with
    | none => rw [hop] at ha; cases ha; simp
    | some s =>
      rw [hop] at h0
      have hse : s = "" := by
        by_contra hne
        simp [strTruthy, hne] at h0
      subst hse
      rw [hop] at ha
      simp only [parseMoneyOpt, if_pos rfl] at ha
      cases ha
      simp

/-- C9 witness: the concrete payload with price "0" and empty avgPrice parses
to a record with price = decimal 0 present and average price absent. -/
theorem c9_parse_order_price_presence_witness :
    BybitOrderManager.parse_order c9od = Except.ok c9o ∧
    c9o.price = some 0 ∧ c9o.average_price = none := by
  have hok : BybitOrderManager.parse_order c9od = Except.ok c9o := by decide
  have hp := (c9_parse_order_price_presence c9od c9o hok).2.1 "0" rfl (by decide)
  have ha := (c9_parse_order_price_presence c9od c9o hok).2.2.2.2 (by decide)
  exact ⟨hok, by rw [hp]; decide, ha⟩

/-- C10: for every incoming WebSocket message whose topic starts with
"tickers" but whose data field is absent or an empty object,
`_process_message` leaves the stream state (the four tracked best-bid and
best-ask scalars and the stored latest snapshot) unchanged and delivers
nothing to the registered callback. -/
theorem c10_empty_ticker_leaves_state_unchanged (S : String) (cb : Bool) (msg : WsMsg)
    (st : StreamState)
    (htop : strStarts (msg.topic.getD "") "tickers" = true)
    (hdata : msg.data = none ∨
      msg.data = some { symbol := none, bid1Price := none, bid1Size := none,
                        ask1Price := none, ask1Size := none, hasOtherKeys := false }) :
    BybitOrderBookStream.process_message S cb msg st = Except.ok (st, none) := by
  unfold BybitOrderBookStream.process_message
  rcases hdata with hd | hd <;> rw [htop, hd] <;> simp [tickerTruthy]

/-- C10 witness: a tickers-topic message with an absent data field leaves the
initial state untouched and emits nothing. -/
theorem c10_empty_ticker_leaves_state_unchanged_witness :
    BybitOrderBookStream.process_message "BTCUSDT" true
        { topic := some "tickers.BTCUSDT", data := none, ts := some 5 }
        initStreamState = Except.ok (initStreamState, none) :=
  c10_empty_ticker_leaves_state_unchanged "BTCUSDT" true
    { topic := some "tickers.BTCUSDT", data := none, ts := some 5 }
    initStreamState (by decide) (Or.inl rfl)
